import Mathlib

/-!
# Node-lifecycle adapter of cloud-provider-nvidia-bmm

A shallow embedding of `pkg/cloudprovider` (files `instances.go`, `zones.go`,
`nvidia_bmm_cloud.go`) together with the identity codec of `pkg/providerid`.

Conventions of the embedding:

* a Go `string` is a Lean `String`; `fmt.Sprintf("lit%s", x)` is `"lit" ++ x`;
* a Go pointer that may be `nil` is an `Option`;
* a Go `error` is a value of `Error`; a `(value, error)` return is kept as a pair so that
  the value returned next to an error stays visible;
* a remote lookup is a function stored in the adapter; every operation reports, next to
  its result, the list of lookups it issued.
-/

namespace NvidiaBMM

/-! ## Go values -/

/-- Go `error` values built by this repository. `errorf` is `fmt.Errorf` with a finished
message, `wrapf` is `fmt.Errorf` with a trailing `%w`, `transport` is an error handed back
by the REST client, and the last three are the error kinds of the identity codec. -/
inductive Error where
  | errorf (msg : String)
  | wrapf (msg : String) (inner : Error)
  | transport (msg : String)
  | MalformedIdentity
  | InvalidInstanceID
  | InvalidIdentity
deriving DecidableEq, Repr

/-- Outcome of a Go call returning `(α, error)`: a normal return of both components, or a
run-time panic (nil dereference). -/
inductive GoResult (α : Type) where
  | ret (val : α) (err : Option Error)
  | panic
deriving Repr

/-- The type `uuid.UUID` of `github.com/google/uuid`: an array of 16 bytes. -/
structure UUID where
  bytes : List (Fin 256)
  size : bytes.length = 16
deriving DecidableEq, Repr

/-- The zero value `uuid.UUID{}` (the nil UUID). -/
def UUID.Nil : UUID := ⟨List.replicate 16 0, rfl⟩

/-! ## Go standard library: `strings.Split` with a one-byte separator -/

namespace strings

/-- Pieces of a character sequence between occurrences of `sep`; a sequence without `sep`
gives exactly one piece, the sequence itself (also when it is empty). -/
def splitChars (sep : Char) : List Char → List (List Char)
  | [] => [[]]
  | c :: cs =>
    if c = sep then [] :: splitChars sep cs
    else
      match splitChars sep cs with
      | p :: ps => (c :: p) :: ps
      | [] => [[c]]

/-- Go `strings.Split(s, sep)` for a separator of one ASCII character. -/
def Split (s : String) (sep : Char) : List String :=
  (splitChars sep s.data).map String.mk

end strings

/-! ## REST client types (`restclient`) and Kubernetes types -/

/-- A network interface of an instance, `restclient.Interface`. -/
structure Interface where
  IpAddresses : Option (List String)
deriving DecidableEq, Repr

/-- The resource body `restclient.Instance` (the fields this package reads or sets). -/
structure Instance where
  Id : Option UUID
  Name : Option String
  Status : Option String
  Interfaces : Option (List Interface)
deriving DecidableEq, Repr

/-- The part of `http.Response` that is read: its status code. -/
structure HTTPResponse where
  StatusCode : Int
deriving DecidableEq, Repr

/-- The generated response wrapper `restclient.GetInstanceResponse`. -/
structure GetInstanceResponse where
  HTTPResponse : Option HTTPResponse
  JSON200 : Option Instance
deriving DecidableEq, Repr

/-- Generated accessor `StatusCode()`: the code of the HTTP response, 0 without one. -/
def GetInstanceResponse.StatusCode (r : GetInstanceResponse) : Int :=
  match r.HTTPResponse with
  | some h => h.StatusCode
  | none => 0

/-- Go constant `http.StatusOK`. -/
def StatusOK : Int := 200

/-- What `GetInstanceWithResponse` returns: the Go pair `(*GetInstanceResponse, error)`. -/
abbrev LookupResult := Option GetInstanceResponse × Option Error

/-- The node fields that are read: `node.Name` and `node.Spec.ProviderID`. -/
structure Node where
  Name : String
  ProviderID : String
deriving DecidableEq, Repr

/-- Kubernetes `v1.NodeAddressType`. -/
inductive NodeAddressType where
  | NodeHostName
  | NodeInternalIP
  | NodeExternalIP
  | NodeInternalDNS
  | NodeExternalDNS
deriving DecidableEq, Repr

/-- Kubernetes `v1.NodeAddress`; the field `Type_` is Go's `Type`. -/
structure NodeAddress where
  Type_ : NodeAddressType
  Address : String
deriving DecidableEq, Repr

namespace cloudprovider

/-- The struct `cloudprovider.InstanceMetadata` of `k8s.io/cloud-provider`. -/
structure InstanceMetadata where
  ProviderID : String
  InstanceType : String
  NodeAddresses : List NodeAddress
  Zone : String
  Region : String
deriving DecidableEq, Repr

/-- The struct `cloudprovider.Zone` of `k8s.io/cloud-provider`. -/
structure Zone where
  FailureDomain : String
  Region : String
deriving DecidableEq, Repr

end cloudprovider

/-! ## Identity codec (`pkg/providerid`) and `github.com/google/uuid` -/

/-- Lower-case hexadecimal digit of a value below 16. -/
def hexDigit (n : Fin 16) : Char :=
  match n.val with
  | 0 => '0' | 1 => '1' | 2 => '2' | 3 => '3' | 4 => '4' | 5 => '5' | 6 => '6' | 7 => '7'
  | 8 => '8' | 9 => '9' | 10 => 'a' | 11 => 'b' | 12 => 'c' | 13 => 'd' | 14 => 'e'
  | _ => 'f'

/-- Value of a hexadecimal digit, in either case; `none` for any other character. -/
def hexValue (c : Char) : Option (Fin 16) :=
  if c = '0' then some 0 else if c = '1' then some 1 else if c = '2' then some 2
  else if c = '3' then some 3 else if c = '4' then some 4 else if c = '5' then some 5
  else if c = '6' then some 6 else if c = '7' then some 7 else if c = '8' then some 8
  else if c = '9' then some 9
  else if c = 'a' ∨ c = 'A' then some 10 else if c = 'b' ∨ c = 'B' then some 11
  else if c = 'c' ∨ c = 'C' then some 12 else if c = 'd' ∨ c = 'D' then some 13
  else if c = 'e' ∨ c = 'E' then some 14 else if c = 'f' ∨ c = 'F' then some 15
  else none

/-- Two hexadecimal digits of one byte, high nibble first. -/
def encodeByte (b : Fin 256) : List Char :=
  [hexDigit ⟨b.val / 16, by omega⟩, hexDigit ⟨b.val % 16, by omega⟩]

/-- Hexadecimal text of a byte sequence. -/
def encodeHex : List (Fin 256) → List Char
  | [] => []
  | b :: bs => encodeByte b ++ encodeHex bs

/-- Bytes of a hexadecimal text; `none` on an odd length or a character that is no
hexadecimal digit. -/
def decodeHex : List Char → Option (List (Fin 256))
  | [] => some []
  | [_] => none
  | h :: l :: rest =>
    match hexValue h, hexValue l, decodeHex rest with
    | some hv, some lv, some bs => some (⟨16 * hv.val + lv.val, by omega⟩ :: bs)
    | _, _, _ => none

/-- Method `String()` of `uuid.UUID` (named `String_` here, `String` being the Lean type):
the canonical form, lower-case hexadecimal digits in groups of 8-4-4-4-12 joined by `-`. -/
def UUID.String_ (u : UUID) : String :=
  String.mk (encodeHex (u.bytes.take 4) ++ '-' :: encodeHex ((u.bytes.drop 4).take 2)
    ++ '-' :: encodeHex ((u.bytes.drop 6).take 2)
    ++ '-' :: encodeHex ((u.bytes.drop 8).take 2)
    ++ '-' :: encodeHex (u.bytes.drop 10))

/-- Modelled from the spec: `uuid.Parse` of `github.com/google/uuid`, which is not part of
the sources, restricted to the form the spec names, "canonical 8-4-4-4-12 hyphenated
hexadecimal form": 36 characters, `-` at offsets 8, 13, 18 and 23, hexadecimal digits
everywhere else. -/
def UUID.Parse (s : String) : Option UUID :=
  let cs := s.data
  if cs.length ≠ 36 then none
  else if cs[8]? ≠ some '-' ∨ cs[13]? ≠ some '-' ∨ cs[18]? ≠ some '-' ∨ cs[23]? ≠ some '-' then
    none
  else
    match decodeHex (cs.take 8 ++ (cs.drop 9).take 4 ++ (cs.drop 14).take 4
        ++ (cs.drop 19).take 4 ++ cs.drop 24) with
    | some bs => if h : bs.length = 16 then some ⟨bs, h⟩ else none
    | none => none

namespace providerid

/-- Modelled from the spec: the struct `providerid.ProviderID`, missing from the sources;
the spec's ProviderIdentity, "organization: string, tenant: string, site: string,
  instanceID: 128-bit UUID". The field `InstanceID` is read in `parseProviderID`. -/
structure ProviderID where
  OrgName : String
  TenantName : String
  SiteName : String
  InstanceID : UUID
deriving DecidableEq, Repr

/-- Modelled from the spec: the fixed scheme prefix of the wire format
`<scheme>://<organization>/<tenant>/<site>/<instance-uuid>`, with the scheme
`nvidia-bmm` of the provider IDs built in the tests. -/
def Scheme : String := "nvidia-bmm://"

/-- Modelled from the spec: the constructor `providerid.NewProviderID`, missing from the
sources; the tests call it with organization, tenant, site and instance identifier. -/
def NewProviderID (orgName tenantName siteName : String) (instanceID : UUID) : ProviderID :=
  ⟨orgName, tenantName, siteName, instanceID⟩

/-- Modelled from the spec: the method `String()` of `providerid.ProviderID`, missing from
the sources (named `String_` here); the wire format
`<scheme>://<organization>/<tenant>/<site>/<instance-uuid>`. -/
def ProviderID.String_ (p : ProviderID) : String :=
  Scheme ++ p.OrgName ++ "/" ++ p.TenantName ++ "/" ++ p.SiteName ++ "/"
    ++ p.InstanceID.String_

/-- Modelled from the spec: the invariant of a ProviderIdentity, "all four fields
non-empty and instanceID is a syntactically valid UUID; the encoded form is a single
string with exactly four '/'-delimited segments after a fixed scheme prefix". An
identifier of 16 bytes counts as non-empty when it is not the nil UUID. -/
def ProviderID.Valid (p : ProviderID) : Prop :=
  p.OrgName ≠ "" ∧ p.TenantName ≠ "" ∧ p.SiteName ≠ "" ∧ p.InstanceID ≠ UUID.Nil ∧
    (strings.Split (String.mk (p.String_.data.drop Scheme.length)) '/').length = 4

instance (p : ProviderID) : Decidable p.Valid := by
  unfold ProviderID.Valid; infer_instance

/-- Modelled from the spec: `Encode`, which "fails with `InvalidIdentity` if any field is
empty or instanceID is the nil UUID" and otherwise gives the wire format. -/
def Encode (p : ProviderID) : Except Error String :=
  if p.OrgName = "" ∨ p.TenantName = "" ∨ p.SiteName = "" ∨ p.InstanceID = UUID.Nil then
    .error .InvalidIdentity
  else .ok p.String_

/-- Modelled from the spec: `providerid.ParseProviderID`, missing from the sources; the
spec's `Decode`. It "fails with `MalformedIdentity` when the raw string does not match the
expected scheme-prefixed, four-segment, '/'-delimited shape (missing scheme, wrong segment
count, empty segment)" and "with `InvalidInstanceID` when the last segment is not a
parseable UUID". -/
def ParseProviderID (raw : String) : Except Error ProviderID :=
  if Scheme.data.isPrefixOf raw.data then
    match strings.Split (String.mk (raw.data.drop Scheme.length)) '/' with
    | [org, tenant, site, last] =>
      if org = "" ∨ tenant = "" ∨ site = "" ∨ last = "" then .error .MalformedIdentity
      else
        match UUID.Parse last with
        | some id => .ok ⟨org, tenant, site, id⟩
        | none => .error .InvalidInstanceID
    | _ => .error .MalformedIdentity
  else .error .MalformedIdentity

end providerid

/-! ## The adapter -/

/-- The adapter `NvidiaBMMCloud`. The client interface has the single method
`GetInstanceWithResponse(ctx, org, instanceId, nil)`, kept as a function of the
organisation and the instance identifier. -/
structure NvidiaBMMCloud where
  nvidiaBmmClient : String → UUID → LookupResult
  orgName : String
  siteID : String
  tenantID : String

/-- One remote lookup issued by an operation. -/
structure LookupCall where
  org : String
  instanceId : UUID
deriving DecidableEq, Repr

/-- An operation run: the remote lookups it issued, in order, and what it returned. -/
structure Run (α : Type) where
  calls : List LookupCall
  result : GoResult α

/-- The method `getZoneFromSiteID` of `instances.go`. -/
def getZoneFromSiteID (_c : NvidiaBMMCloud) (siteID : String) : String :=
  "nvidia-bmm-zone-" ++ siteID

/-- The method `getRegionFromSiteID` of `instances.go`. -/
def getRegionFromSiteID (_c : NvidiaBMMCloud) (siteID : String) : String :=
  let parts := strings.Split siteID '-'
  if h : parts.length > 0 then
    "nvidia-bmm-region-" ++ parts[0]
  else
    "nvidia-bmm-region-default"

/-- The function `parseProviderID` of `instances.go`: the instance identifier of a
provider ID, the nil UUID next to the codec's error. -/
def parseProviderID (providerIDStr : String) : UUID × Option Error :=
  match providerid.ParseProviderID providerIDStr with
  | .error err => (UUID.Nil, some err)
  | .ok parsed => (parsed.InstanceID, none)

/-- The method `InstanceExists` of `instances.go`. -/
def InstanceExists (c : NvidiaBMMCloud) (node : Node) : Run Bool :=
  let providerID := node.ProviderID
  if providerID = "" then
    ⟨[], .ret false (some (.errorf ("node " ++ node.Name ++ " has no provider ID")))⟩
  else
    match parseProviderID providerID with
    | (_, some err) => ⟨[], .ret false (some (.wrapf "failed to parse provider ID: " err))⟩
    | (instanceUUID, none) =>
      match c.nvidiaBmmClient c.orgName instanceUUID with
      | (_, some _) => ⟨[⟨c.orgName, instanceUUID⟩], .ret false none⟩
      | (none, none) => ⟨[⟨c.orgName, instanceUUID⟩], .panic⟩
      | (some resp, none) =>
        if resp.StatusCode ≠ StatusOK ∨ resp.JSON200.isNone then
          ⟨[⟨c.orgName, instanceUUID⟩], .ret false none⟩
        else
          ⟨[⟨c.orgName, instanceUUID⟩], .ret true none⟩

/-- The status switch of `InstanceShutdown` (lines 68-78 of `instances.go`): `true` for a
present status equal to one of the three case labels, `false` for any other present
status and for a nil status. -/
def shutdownOfStatus (inst : Instance) : Bool :=
  match inst.Status with
  | some status =>
    if status = "Terminating" ∨ status = "Terminated" ∨ status = "Error" then true
    else false
  | none => false

/-- The method `InstanceShutdown` of `instances.go`. -/
def InstanceShutdown (c : NvidiaBMMCloud) (node : Node) : Run Bool :=
  let providerID := node.ProviderID
  if providerID = "" then
    ⟨[], .ret false (some (.errorf ("node " ++ node.Name ++ " has no provider ID")))⟩
  else
    match parseProviderID providerID with
    | (_, some err) => ⟨[], .ret false (some (.wrapf "failed to parse provider ID: " err))⟩
    | (instanceUUID, none) =>
      match c.nvidiaBmmClient c.orgName instanceUUID with
      | (_, some err) =>
        ⟨[⟨c.orgName, instanceUUID⟩], .ret false (some (.wrapf "failed to get instance: " err))⟩
      | (none, none) => ⟨[⟨c.orgName, instanceUUID⟩], .panic⟩
      | (some resp, none) =>
        if resp.StatusCode ≠ StatusOK ∨ resp.JSON200.isNone then
          ⟨[⟨c.orgName, instanceUUID⟩], .ret false (some (.errorf
            ("failed to get instance, status " ++ toString resp.StatusCode)))⟩
        else
          match resp.JSON200 with
          | none => ⟨[⟨c.orgName, instanceUUID⟩], .panic⟩
          | some inst => ⟨[⟨c.orgName, instanceUUID⟩], .ret (shutdownOfStatus inst) none⟩

/-- The address loop of `InstanceMetadata` (lines 105-124 of `instances.go`): one
`append` per IP address of each interface, then one `append` of the host name. -/
def nodeAddresses (inst : Instance) (nodeName : String) : List NodeAddress :=
  let addresses : List NodeAddress := []
  let addresses :=
    match inst.Interfaces with
    | some ifaces =>
      ifaces.foldl (fun acc iface =>
        match iface.IpAddresses with
        | some ips => ips.foldl (fun acc ipAddr => acc ++ [⟨.NodeInternalIP, ipAddr⟩]) acc
        | none => acc) addresses
    | none => addresses
  addresses ++ [⟨.NodeHostName, nodeName⟩]

/-- The method `InstanceMetadata` of `instances.go`. -/
def InstanceMetadata (c : NvidiaBMMCloud) (node : Node) :
    Run (Option cloudprovider.InstanceMetadata) :=
  let providerID := node.ProviderID
  if providerID = "" then
    ⟨[], .ret none (some (.errorf ("node " ++ node.Name ++ " has no provider ID")))⟩
  else
    match parseProviderID providerID with
    | (_, some err) => ⟨[], .ret none (some (.wrapf "failed to parse provider ID: " err))⟩
    | (instanceUUID, none) =>
      match c.nvidiaBmmClient c.orgName instanceUUID with
      | (_, some err) =>
        ⟨[⟨c.orgName, instanceUUID⟩], .ret none (some (.wrapf "failed to get instance: " err))⟩
      | (none, none) => ⟨[⟨c.orgName, instanceUUID⟩], .panic⟩
      | (some resp, none) =>
        if resp.StatusCode ≠ StatusOK ∨ resp.JSON200.isNone then
          ⟨[⟨c.orgName, instanceUUID⟩], .ret none (some (.errorf
            ("failed to get instance, status " ++ toString resp.StatusCode)))⟩
        else
          match resp.JSON200 with
          | none => ⟨[⟨c.orgName, instanceUUID⟩], .panic⟩
          | some inst =>
            let addresses := nodeAddresses inst node.Name
            let zone := getZoneFromSiteID c c.siteID
            let instanceType := if inst.Id.isSome then "nvidia-bmm-instance" else "unknown"
            ⟨[⟨c.orgName, instanceUUID⟩], .ret (some {
              ProviderID := providerID
              InstanceType := instanceType
              NodeAddresses := addresses
              Zone := zone
              Region := getRegionFromSiteID c c.siteID }) none⟩

/-- The IP address strings of an interface list, interface order first and address order
within an interface, an absent address list giving nothing (the address list the spec
describes). -/
def ipAddressStrings : List Interface → List String
  | [] => []
  | iface :: rest => iface.IpAddresses.getD [] ++ ipAddressStrings rest

/-- The address list the spec describes: one internal-IP entry per address string of
the instance, then one host-name entry carrying the node name. -/
def specAddresses (inst : Instance) (nodeName : String) : List NodeAddress :=
  (ipAddressStrings (inst.Interfaces.getD [])).map (fun ip => ⟨.NodeInternalIP, ip⟩)
    ++ [⟨.NodeHostName, nodeName⟩]

/-- An adapter whose lookup always answers with the given result. -/
def cloudAnswering (r : LookupResult) (siteID : String) : NvidiaBMMCloud :=
  ⟨fun _ _ => r, "test-org", siteID, "test-tenant"⟩

/-- The instance identifier `12345678-1234-1234-1234-123456789abc` of the integration
tests. -/
def sampleUUID : UUID :=
  ⟨[0x12, 0x34, 0x56, 0x78, 0x12, 0x34, 0x12, 0x34, 0x12, 0x34, 0x12, 0x34, 0x56, 0x78,
    0x9a, 0xbc], rfl⟩

/-- The node of the spec's metadata example. -/
def sampleNode : Node :=
  ⟨"test-node", "nvidia-bmm://org1/tenant1/site-east-1/12345678-1234-1234-1234-123456789abc"⟩

/-- A response with the given HTTP status code and body. -/
def response (code : Int) (body : Option Instance) : GetInstanceResponse :=
  ⟨some ⟨code⟩, body⟩

/-- A lookup answer with the given HTTP status code and body, without transport error. -/
def answer (code : Int) (body : Option Instance) : LookupResult :=
  (some (response code body), none)

/-- An instance body with the given status and one interface bearing `10.100.1.10`. -/
def sampleInstance (status : Option String) : Instance :=
  ⟨some sampleUUID, some "test-instance", status, some [⟨some ["10.100.1.10"]⟩]⟩

/-- An instance body without resource identifier, with two interfaces sharing an address
and one interface without address list. -/
def anonymousInstance : Instance :=
  ⟨none, none, some "Running",
    some [⟨some ["10.0.0.1", "10.0.0.2"]⟩, ⟨none⟩, ⟨some ["10.0.0.1"]⟩]⟩

/-- A node whose provider ID names another site than the configured one. -/
def foreignNode : Node :=
  ⟨"other-node", "nvidia-bmm://org2/tenant2/west-9/12345678-1234-1234-1234-123456789abc"⟩

/-! ## Zones (`zones.go`) and configuration (`nvidia_bmm_cloud.go`) -/

/-- The method `GetZone` of `zones.go`. -/
def GetZone (c : NvidiaBMMCloud) : cloudprovider.Zone × Option Error :=
  let zone : cloudprovider.Zone := {
    FailureDomain := getZoneFromSiteID c c.siteID
    Region := getRegionFromSiteID c c.siteID }
  (zone, none)

/-- The method `GetZoneByProviderID` of `zones.go`; the provider ID is not read. -/
def GetZoneByProviderID (c : NvidiaBMMCloud) (_providerID : String) :
    cloudprovider.Zone × Option Error :=
  let zone : cloudprovider.Zone := {
    FailureDomain := getZoneFromSiteID c c.siteID
    Region := getRegionFromSiteID c c.siteID }
  (zone, none)

/-- The method `GetZoneByNodeName` of `zones.go`; the node name (`types.NodeName`, a
string) is not read. -/
def GetZoneByNodeName (c : NvidiaBMMCloud) (_nodeName : String) :
    cloudprovider.Zone × Option Error :=
  let zone : cloudprovider.Zone := {
    FailureDomain := getZoneFromSiteID c c.siteID
    Region := getRegionFromSiteID c c.siteID }
  (zone, none)

/-- The struct `Config` of `nvidia_bmm_cloud.go`. -/
structure Config where
  Endpoint : String
  OrgName : String
  Token : String
  SiteID : String
  TenantID : String
deriving DecidableEq, Repr

/-- The method `Config.Validate` of `nvidia_bmm_cloud.go`; `none` is Go's nil error. -/
def Config.Validate (c : Config) : Option Error :=
  if c.Endpoint = "" then some (.errorf "endpoint is required")
  else if c.OrgName = "" then some (.errorf "orgName is required")
  else if c.Token = "" then some (.errorf "token is required")
  else if c.SiteID = "" then some (.errorf "siteId is required")
  else if c.TenantID = "" then some (.errorf "tenantId is required")
  else none

/-- The five fields with the names the error messages use, in the order endpoint,
orgName, token, siteId, tenantId. -/
def Config.namedFields (c : Config) : List (String × String) :=
  [("endpoint", c.Endpoint), ("orgName", c.OrgName), ("token", c.Token),
    ("siteId", c.SiteID), ("tenantId", c.TenantID)]

/-- The name of the first empty field in that order, if any field is empty. -/
def Config.firstEmptyField (c : Config) : Option String :=
  (c.namedFields.find? (fun p => p.2 = "")).map (fun p => p.1)

/-- The `/`-delimited segments of an identity string after its scheme part. -/
def segmentsAfterScheme (raw : String) : List String :=
  strings.Split (String.mk (raw.data.drop providerid.Scheme.length)) '/'

/-- A node with the given provider ID. -/
def nodeWithID (providerID : String) : Node :=
  ⟨"test-node", providerID⟩

/-- A complete configuration, as in the tests. -/
def sampleConfig : Config :=
  ⟨"https://api.carbide.test", "test-org", "test-token", "test-site", "test-tenant"⟩

/-- A configuration whose token and site are empty. -/
def partialConfig : Config :=
  ⟨"https://api.carbide.test", "test-org", "", "", "test-tenant"⟩

/-- An adapter configured with the site `site-east-1` whose lookup always finds
a running instance. -/
def healthyCloud : NvidiaBMMCloud :=
  cloudAnswering (answer 200 (some (sampleInstance (some "Running")))) "site-east-1"

/-- An adapter configured with the site `site-east-1` whose lookup always answers 404
without a body. -/
def notFoundCloud : NvidiaBMMCloud :=
  cloudAnswering (answer 404 none) "site-east-1"

/-! ## Shared lemmas -/

theorem parseProviderID_empty : parseProviderID "" = (UUID.Nil, some .MalformedIdentity) := by
  decide

theorem providerID_ne_empty_of_decodable {s : String} {uuid : UUID}
    (hdec : parseProviderID s = (uuid, none)) : s ≠ "" := by
  intro h
  subst h
  rw [parseProviderID_empty] at hdec
  simp at hdec

theorem sampleNode_decodable : parseProviderID sampleNode.ProviderID = (sampleUUID, none) := by
  decide

theorem InstanceExists_of_decodable (c : NvidiaBMMCloud) (node : Node) (uuid : UUID)
    (hdec : parseProviderID node.ProviderID = (uuid, none)) :
    InstanceExists c node =
      match c.nvidiaBmmClient c.orgName uuid with
      | (_, some _) => ⟨[⟨c.orgName, uuid⟩], .ret false none⟩
      | (none, none) => ⟨[⟨c.orgName, uuid⟩], .panic⟩
      | (some resp, none) =>
        if resp.StatusCode ≠ StatusOK ∨ resp.JSON200.isNone then
          ⟨[⟨c.orgName, uuid⟩], .ret false none⟩
        else
          ⟨[⟨c.orgName, uuid⟩], .ret true none⟩ := by
  have hne := providerID_ne_empty_of_decodable hdec
  simp only [InstanceExists, hne, if_false, hdec]

theorem InstanceShutdown_of_decodable (c : NvidiaBMMCloud) (node : Node) (uuid : UUID)
    (hdec : parseProviderID node.ProviderID = (uuid, none)) :
    InstanceShutdown c node =
      match c.nvidiaBmmClient c.orgName uuid with
      | (_, some err) =>
        ⟨[⟨c.orgName, uuid⟩], .ret false (some (.wrapf "failed to get instance: " err))⟩
      | (none, none) => ⟨[⟨c.orgName, uuid⟩], .panic⟩
      | (some resp, none) =>
        if resp.StatusCode ≠ StatusOK ∨ resp.JSON200.isNone then
          ⟨[⟨c.orgName, uuid⟩], .ret false (some (.errorf
            ("failed to get instance, status " ++ toString resp.StatusCode)))⟩
        else
          match resp.JSON200 with
          | none => ⟨[⟨c.orgName, uuid⟩], .panic⟩
          | some inst => ⟨[⟨c.orgName, uuid⟩], .ret (shutdownOfStatus inst) none⟩ := by
  have hne := providerID_ne_empty_of_decodable hdec
  simp only [InstanceShutdown, hne, if_false, hdec]

theorem InstanceMetadata_of_decodable (c : NvidiaBMMCloud) (node : Node) (uuid : UUID)
    (hdec : parseProviderID node.ProviderID = (uuid, none)) :
    InstanceMetadata c node =
      match c.nvidiaBmmClient c.orgName uuid with
      | (_, some err) =>
        ⟨[⟨c.orgName, uuid⟩], .ret none (some (.wrapf "failed to get instance: " err))⟩
      | (none, none) => ⟨[⟨c.orgName, uuid⟩], .panic⟩
      | (some resp, none) =>
        if resp.StatusCode ≠ StatusOK ∨ resp.JSON200.isNone then
          ⟨[⟨c.orgName, uuid⟩], .ret none (some (.errorf
            ("failed to get instance, status " ++ toString resp.StatusCode)))⟩
        else
          match resp.JSON200 with
          | none => ⟨[⟨c.orgName, uuid⟩], .panic⟩
          | some inst =>
            ⟨[⟨c.orgName, uuid⟩], .ret (some {
              ProviderID := node.ProviderID
              InstanceType := if inst.Id.isSome then "nvidia-bmm-instance" else "unknown"
              NodeAddresses := nodeAddresses inst node.Name
              Zone := getZoneFromSiteID c c.siteID
              Region := getRegionFromSiteID c c.siteID }) none⟩ := by
  have hne := providerID_ne_empty_of_decodable hdec
  simp only [InstanceMetadata, hne, if_false, hdec]

theorem InstanceMetadata_of_found (c : NvidiaBMMCloud) (node : Node) (uuid : UUID)
    (resp : GetInstanceResponse) (inst : Instance)
    (hdec : parseProviderID node.ProviderID = (uuid, none))
    (hlook : c.nvidiaBmmClient c.orgName uuid = (some resp, none))
    (hcode : resp.StatusCode = 200) (hbody : resp.JSON200 = some inst) :
    (InstanceMetadata c node).result = .ret (some {
      ProviderID := node.ProviderID
      InstanceType := if inst.Id.isSome then "nvidia-bmm-instance" else "unknown"
      NodeAddresses := nodeAddresses inst node.Name
      Zone := getZoneFromSiteID c c.siteID
      Region := getRegionFromSiteID c c.siteID }) none := by
  rw [InstanceMetadata_of_decodable c node uuid hdec, hlook]
  simp [hbody, hcode, StatusOK]

theorem shutdownOfStatus_eq_true_iff (inst : Instance) :
    shutdownOfStatus inst = true ↔
      inst.Status = some "Terminating" ∨ inst.Status = some "Terminated"
        ∨ inst.Status = some "Error" := by
  unfold shutdownOfStatus
  cases h : inst.Status with
  | none => simp
  | some status => simp

theorem splitChars_of_not_mem (sep : Char) (l : List Char) (h : sep ∉ l) :
    strings.splitChars sep l = [l] := by
  induction l with
  | nil => rfl
  | cons c cs ih =>
    have hc : c ≠ sep := fun e => h (by simp [e])
    have hcs : sep ∉ cs := fun e => h (by simp [e])
    simp [strings.splitChars, hc, ih hcs]

theorem splitChars_append_sep (sep : Char) (pre rest : List Char) (h : sep ∉ pre) :
    strings.splitChars sep (pre ++ sep :: rest) = pre :: strings.splitChars sep rest := by
  induction pre with
  | nil => simp [strings.splitChars]
  | cons c cs ih =>
    have hc : c ≠ sep := fun e => h (by simp [e])
    have hcs : sep ∉ cs := fun e => h (by simp [e])
    simp [strings.splitChars, hc, ih hcs]

theorem exists_first_occurrence (sep : Char) (l : List Char) (h : sep ∈ l) :
    ∃ pre rest, l = pre ++ sep :: rest ∧ sep ∉ pre := by
  induction l with
  | nil => simp at h
  | cons c cs ih =>
    by_cases hc : c = sep
    · exact ⟨[], cs, by simp [hc], by simp⟩
    · have hcs : sep ∈ cs := by
        rcases List.mem_cons.mp h with e | e
        · exact absurd e.symm hc
        · exact e
      obtain ⟨pre, rest, hl, hpre⟩ := ih hcs
      refine ⟨c :: pre, rest, by simp [hl], ?_⟩
      intro hmem
      rcases List.mem_cons.mp hmem with e | e
      · exact hc e.symm
      · exact hpre e

theorem getRegionFromSiteID_of_split (c : NvidiaBMMCloud) (siteID p : String)
    (ps : List String) (h : strings.Split siteID '-' = p :: ps) :
    getRegionFromSiteID c siteID = "nvidia-bmm-region-" ++ p := by
  have key : ∀ parts : List String, parts = p :: ps →
      (if h : parts.length > 0 then "nvidia-bmm-region-" ++ parts[0]
        else "nvidia-bmm-region-default") = "nvidia-bmm-region-" ++ p := by
    intro parts hp
    subst hp
    simp
  exact key _ h

theorem hexValue_hexDigit : ∀ n : Fin 16, hexValue (hexDigit n) = some n := by decide
theorem hexDigit_ne_slash : ∀ n : Fin 16, hexDigit n ≠ '/' := by decide

theorem byte_of_nibbles (b : Fin 256) (h : 16 * (b.val / 16) + b.val % 16 < 256) :
    (⟨16 * (b.val / 16) + b.val % 16, h⟩ : Fin 256) = b := by
  apply Fin.ext
  simp only
  omega

theorem slash_not_mem_encodeHex (bs : List (Fin 256)) : '/' ∉ encodeHex bs := by
  induction bs with
  | nil => simp [encodeHex]
  | cons b rest ih =>
    simp only [encodeHex, encodeByte, List.cons_append, List.nil_append, List.mem_cons, not_or]
    exact ⟨(hexDigit_ne_slash _).symm, (hexDigit_ne_slash _).symm, ih⟩

theorem slash_not_mem_UUID_String (u : UUID) : '/' ∉ u.String_.data := by
  simp [UUID.String_, slash_not_mem_encodeHex]

theorem UUID_String_ne_empty (u : UUID) : u.String_ ≠ "" := by
  intro h
  have hd := congrArg String.data h
  simp [UUID.String_] at hd

theorem UUID_Parse_String (u : UUID) : UUID.Parse u.String_ = some u := by
  obtain ⟨bs, hsize⟩ := u
  match bs, hsize with
  | [b0, b1, b2, b3, b4, b5, b6, b7, b8, b9, b10, b11, b12, b13, b14, b15], _ =>
    simp [UUID.Parse, UUID.String_, encodeHex, encodeByte, decodeHex, hexValue_hexDigit,
      byte_of_nibbles]

theorem ParseProviderID_String (x : providerid.ProviderID)
    (horg : x.OrgName ≠ "") (hten : x.TenantName ≠ "") (hsite : x.SiteName ≠ "")
    (hso : '/' ∉ x.OrgName.data) (hst : '/' ∉ x.TenantName.data)
    (hss : '/' ∉ x.SiteName.data) :
    providerid.ParseProviderID x.String_ = .ok x := by
  have hdata : x.String_.data = providerid.Scheme.data ++ (x.OrgName.data ++ '/' ::
      (x.TenantName.data ++ '/' :: (x.SiteName.data ++ '/' :: x.InstanceID.String_.data))) := by
    simp [providerid.ProviderID.String_, String.data_append]
  have hdrop : x.String_.data.drop providerid.Scheme.length = x.OrgName.data ++ '/' ::
      (x.TenantName.data ++ '/' :: (x.SiteName.data ++ '/' :: x.InstanceID.String_.data)) := by
    rw [hdata]
    exact List.drop_left _ _
  have hsplit : strings.Split (String.mk (x.String_.data.drop providerid.Scheme.length)) '/'
      = [x.OrgName, x.TenantName, x.SiteName, x.InstanceID.String_] := by
    rw [hdrop]
    simp only [strings.Split, splitChars_append_sep _ _ _ hso, splitChars_append_sep _ _ _ hst,
      splitChars_append_sep _ _ _ hss,
      splitChars_of_not_mem _ _ (slash_not_mem_UUID_String x.InstanceID), List.map]
  have hpre : providerid.Scheme.data.isPrefixOf x.String_.data = true := by
    rw [hdata, List.isPrefixOf_iff_prefix]
    exact List.prefix_append _ _
  unfold providerid.ParseProviderID
  rw [if_pos hpre, hsplit]
  simp [horg, hten, hsite, UUID_String_ne_empty, UUID_Parse_String]
theorem ParseProviderID_rejects (s : String)
    (h : s = "" ∨ ¬ providerid.Scheme.data.isPrefixOf s.data = true ∨
      (segmentsAfterScheme s).length < 4 ∨ "" ∈ segmentsAfterScheme s ∨
      (∃ last, (segmentsAfterScheme s).getLast? = some last ∧ UUID.Parse last = none)) :
    ∃ e, providerid.ParseProviderID s = .error e := by
  rcases h with h | h
  · subst h
    exact ⟨.MalformedIdentity, rfl⟩
  · unfold providerid.ParseProviderID
    by_cases hp : providerid.Scheme.data.isPrefixOf s.data = true
    · rw [if_pos hp]
      have h' := h.resolve_left (fun hn => hn hp)
      unfold segmentsAfterScheme at h'
      generalize strings.Split (String.mk (s.data.drop providerid.Scheme.length)) '/' = segs
        at h' ⊢
      split
      · rename_i org tenant site last
        by_cases hempty : org = "" ∨ tenant = "" ∨ site = "" ∨ last = ""
        · rw [if_pos hempty]
          exact ⟨_, rfl⟩
        · rw [if_neg hempty]
          have hparse : UUID.Parse last = none := by
            rcases h' with h' | h' | ⟨l, hl, hpl⟩
            · simp at h'
            · simp only [List.mem_cons, List.mem_singleton, List.not_mem_nil, or_false] at h'
              exact absurd (by
                rcases h' with e | e | e | e
                · exact Or.inl e.symm
                · exact Or.inr (Or.inl e.symm)
                · exact Or.inr (Or.inr (Or.inl e.symm))
                · exact Or.inr (Or.inr (Or.inr e.symm))) hempty
            · simp at hl
              rw [hl]
              exact hpl
          rw [hparse]
          exact ⟨_, rfl⟩
      · exact ⟨_, rfl⟩
    · rw [if_neg hp]
      exact ⟨_, rfl⟩
theorem InstanceMetadata_some_topology (c : NvidiaBMMCloud) (node : Node)
    (m : cloudprovider.InstanceMetadata) (e : Option Error)
    (h : (InstanceMetadata c node).result = .ret (some m) e) :
    m.Zone = getZoneFromSiteID c c.siteID ∧ m.Region = getRegionFromSiteID c c.siteID := by
  unfold InstanceMetadata at h
  simp only at h
  repeat' split at h
  all_goals first
    | (injection h with h1 h2; injection h1 with h1; subst h1; exact ⟨rfl, rfl⟩)
    | (injection h with h1 h2; cases h1)
    | cases h

/-! ## C1: shutdown classification -/

/-- C1: for a node with a decodable provider ID and a lookup that returned no transport
error, status 200 and a body, `InstanceShutdown` returns `(true, nil)` exactly when the
status is present and is one of `Terminating`, `Terminated`, `Error` (compared as exact
strings), and returns `(false, nil)` in every other case, an absent status included. -/
theorem InstanceShutdown_status_table (c : NvidiaBMMCloud) (node : Node) (uuid : UUID)
    (resp : GetInstanceResponse) (inst : Instance)
    (hdec : parseProviderID node.ProviderID = (uuid, none))
    (hlook : c.nvidiaBmmClient c.orgName uuid = (some resp, none))
    (hcode : resp.StatusCode = 200) (hbody : resp.JSON200 = some inst) :
    ((InstanceShutdown c node).result = .ret true none ↔
      (inst.Status = some "Terminating" ∨ inst.Status = some "Terminated"
        ∨ inst.Status = some "Error")) ∧
    (¬ (inst.Status = some "Terminating" ∨ inst.Status = some "Terminated"
        ∨ inst.Status = some "Error") →
      (InstanceShutdown c node).result = .ret false none) := by
  have hres : (InstanceShutdown c node).result = .ret (shutdownOfStatus inst) none := by
    rw [InstanceShutdown_of_decodable c node uuid hdec, hlook]
    simp [hbody, hcode, StatusOK]
  rw [hres, ← shutdownOfStatus_eq_true_iff]
  constructor
  · constructor
    · intro h
      injection h
    · intro h
      rw [h]
  · intro h
    have hf : shutdownOfStatus inst = false := by
      cases hs : shutdownOfStatus inst with
      | false => rfl
      | true => exact absurd hs h
    rw [hf]

/-- C1, at concrete inputs: `Terminated` is a shutdown, while `Running`, the lower-case
`terminated`, the empty status and an absent status are not. -/
theorem InstanceShutdown_status_table_witness :
    (InstanceShutdown (cloudAnswering (answer 200 (some (sampleInstance (some "Terminated"))))
      "site-east-1") sampleNode).result = .ret true none ∧
    (InstanceShutdown (cloudAnswering (answer 200 (some (sampleInstance (some "Running"))))
      "site-east-1") sampleNode).result = .ret false none ∧
    (InstanceShutdown (cloudAnswering (answer 200 (some (sampleInstance (some "terminated"))))
      "site-east-1") sampleNode).result = .ret false none ∧
    (InstanceShutdown (cloudAnswering (answer 200 (some (sampleInstance (some ""))))
      "site-east-1") sampleNode).result = .ret false none ∧
    (InstanceShutdown (cloudAnswering (answer 200 (some (sampleInstance none)))
      "site-east-1") sampleNode).result = .ret false none :=
  ⟨(InstanceShutdown_status_table
      (cloudAnswering (answer 200 (some (sampleInstance (some "Terminated")))) "site-east-1")
      sampleNode sampleUUID (response 200 (some (sampleInstance (some "Terminated"))))
      (sampleInstance (some "Terminated")) sampleNode_decodable rfl rfl rfl).1.2 (by decide),
   (InstanceShutdown_status_table
      (cloudAnswering (answer 200 (some (sampleInstance (some "Running")))) "site-east-1")
      sampleNode sampleUUID (response 200 (some (sampleInstance (some "Running"))))
      (sampleInstance (some "Running")) sampleNode_decodable rfl rfl rfl).2 (by decide),
   (InstanceShutdown_status_table
      (cloudAnswering (answer 200 (some (sampleInstance (some "terminated")))) "site-east-1")
      sampleNode sampleUUID (response 200 (some (sampleInstance (some "terminated"))))
      (sampleInstance (some "terminated")) sampleNode_decodable rfl rfl rfl).2 (by decide),
   (InstanceShutdown_status_table
      (cloudAnswering (answer 200 (some (sampleInstance (some "")))) "site-east-1")
      sampleNode sampleUUID (response 200 (some (sampleInstance (some ""))))
      (sampleInstance (some "")) sampleNode_decodable rfl rfl rfl).2 (by decide),
   (InstanceShutdown_status_table
      (cloudAnswering (answer 200 (some (sampleInstance none))) "site-east-1")
      sampleNode sampleUUID (response 200 (some (sampleInstance none)))
      (sampleInstance none) sampleNode_decodable rfl rfl rfl).2 (by decide)⟩

/-! ## C2: existence never fails once the provider ID decodes -/

/-- C2: for a node with a decodable provider ID, `InstanceExists` never returns an error;
it returns `(true, nil)` exactly when the lookup returned no transport error, status 200
and a body; and it returns `(false, nil)` for a transport error, for a status other than
200 and for a missing body. -/
theorem InstanceExists_iff_found (c : NvidiaBMMCloud) (node : Node) (uuid : UUID)
    (hdec : parseProviderID node.ProviderID = (uuid, none)) :
    (∀ v e, (InstanceExists c node).result = .ret v e → e = none) ∧
    ((InstanceExists c node).result = .ret true none ↔
      ∃ resp inst, c.nvidiaBmmClient c.orgName uuid = (some resp, none) ∧
        resp.StatusCode = 200 ∧ resp.JSON200 = some inst) ∧
    (∀ r err, c.nvidiaBmmClient c.orgName uuid = (r, some err) →
      (InstanceExists c node).result = .ret false none) ∧
    (∀ resp, c.nvidiaBmmClient c.orgName uuid = (some resp, none) →
      resp.StatusCode ≠ 200 → (InstanceExists c node).result = .ret false none) ∧
    (∀ resp, c.nvidiaBmmClient c.orgName uuid = (some resp, none) →
      resp.JSON200 = none → (InstanceExists c node).result = .ret false none) := by
  rw [InstanceExists_of_decodable c node uuid hdec]
  rcases hl : c.nvidiaBmmClient c.orgName uuid with ⟨r, e⟩
  cases e with
  | some err => simp
  | none =>
    cases r with
    | none => simp
    | some resp =>
      cases hb : resp.JSON200 with
      | none => simp [hb]
      | some inst =>
        by_cases hc : resp.StatusCode = 200
        · simp [hb, hc, StatusOK]
        · simp [hb, hc, StatusOK]

/-- C2, at concrete inputs: status 200 with a body exists; 404 without a body, 200 without
a body, 500 with a body and a transport error do not, and none of them is an error. -/
theorem InstanceExists_iff_found_witness :
    (InstanceExists (cloudAnswering (answer 200 (some (sampleInstance (some "Running"))))
      "site-east-1") sampleNode).result = .ret true none ∧
    (InstanceExists (cloudAnswering (answer 404 none) "site-east-1") sampleNode).result
      = .ret false none ∧
    (InstanceExists (cloudAnswering (answer 200 none) "site-east-1") sampleNode).result
      = .ret false none ∧
    (InstanceExists (cloudAnswering (answer 500 (some (sampleInstance none))) "site-east-1")
      sampleNode).result = .ret false none ∧
    (InstanceExists (cloudAnswering (none, some (.transport "connection refused"))
      "site-east-1") sampleNode).result = .ret false none :=
  ⟨(InstanceExists_iff_found (cloudAnswering (answer 200 (some (sampleInstance (some "Running"))))
      "site-east-1") sampleNode sampleUUID sampleNode_decodable).2.1.2 ⟨_, _, rfl, rfl, rfl⟩,
   (InstanceExists_iff_found (cloudAnswering (answer 404 none) "site-east-1") sampleNode
      sampleUUID sampleNode_decodable).2.2.2.1 _ rfl (by decide),
   (InstanceExists_iff_found (cloudAnswering (answer 200 none) "site-east-1") sampleNode
      sampleUUID sampleNode_decodable).2.2.2.2 _ rfl rfl,
   (InstanceExists_iff_found (cloudAnswering (answer 500 (some (sampleInstance none)))
      "site-east-1") sampleNode sampleUUID sampleNode_decodable).2.2.2.1 _ rfl (by decide),
   (InstanceExists_iff_found (cloudAnswering (none, some (.transport "connection refused"))
      "site-east-1") sampleNode sampleUUID sampleNode_decodable).2.2.1 _ _ rfl⟩

/-! ## C3: shutdown and metadata surface a failed lookup -/

/-- C3: for a node with a decodable provider ID, when the lookup returns a transport
error, a status other than 200 or no body, `InstanceShutdown` returns an error next to
`false` and `InstanceMetadata` returns an error next to a nil metadata. -/
theorem failed_lookup_is_error (c : NvidiaBMMCloud) (node : Node) (uuid : UUID)
    (hdec : parseProviderID node.ProviderID = (uuid, none))
    (hfail : (∃ r err, c.nvidiaBmmClient c.orgName uuid = (r, some err)) ∨
      (∃ resp, c.nvidiaBmmClient c.orgName uuid = (some resp, none) ∧
        (resp.StatusCode ≠ 200 ∨ resp.JSON200 = none))) :
    (∃ e, (InstanceShutdown c node).result = .ret false (some e)) ∧
    (∃ e, (InstanceMetadata c node).result = .ret none (some e)) := by
  rw [InstanceShutdown_of_decodable c node uuid hdec,
    InstanceMetadata_of_decodable c node uuid hdec]
  rcases hfail with ⟨r, err, hl⟩ | ⟨resp, hl, hbad⟩
  · rw [hl]
    constructor <;> simp
  · rw [hl]
    cases hb : resp.JSON200 with
    | none => constructor <;> simp [hb]
    | some inst =>
      have hc : resp.StatusCode ≠ StatusOK := by
        rcases hbad with h | h
        · exact h
        · rw [hb] at h
          cases h
      constructor <;> simp [hb, hc]

/-- C3, at concrete inputs: a 404 without body and a transport error both give errors. -/
theorem failed_lookup_is_error_witness :
    ((∃ e, (InstanceShutdown (cloudAnswering (answer 404 none) "site-east-1")
        sampleNode).result = .ret false (some e)) ∧
      (∃ e, (InstanceMetadata (cloudAnswering (answer 404 none) "site-east-1")
        sampleNode).result = .ret none (some e))) ∧
    ((∃ e, (InstanceShutdown (cloudAnswering (none, some (.transport "timeout"))
        "site-east-1") sampleNode).result = .ret false (some e)) ∧
      (∃ e, (InstanceMetadata (cloudAnswering (none, some (.transport "timeout"))
        "site-east-1") sampleNode).result = .ret none (some e))) :=
  ⟨failed_lookup_is_error (cloudAnswering (answer 404 none) "site-east-1") sampleNode
      sampleUUID sampleNode_decodable
      (Or.inr ⟨response 404 none, rfl, Or.inl (by decide)⟩),
   failed_lookup_is_error (cloudAnswering (none, some (.transport "timeout")) "site-east-1")
      sampleNode sampleUUID sampleNode_decodable (Or.inl ⟨none, .transport "timeout", rfl⟩)⟩

/-! ## C4: the address list -/

theorem foldl_append_internalIP (ips : List String) (acc : List NodeAddress) :
    ips.foldl (fun acc ipAddr => acc ++ [(⟨.NodeInternalIP, ipAddr⟩ : NodeAddress)]) acc
      = acc ++ ips.map (fun ip => ⟨.NodeInternalIP, ip⟩) := by
  induction ips generalizing acc with
  | nil => simp
  | cons ip rest ih => simp [List.foldl_cons, ih]

theorem foldl_interfaces (ifaces : List Interface) (acc : List NodeAddress) :
    ifaces.foldl (fun acc iface =>
        match iface.IpAddresses with
        | some ips =>
          ips.foldl (fun acc ipAddr => acc ++ [(⟨.NodeInternalIP, ipAddr⟩ : NodeAddress)]) acc
        | none => acc) acc
      = acc ++ (ipAddressStrings ifaces).map (fun ip => ⟨.NodeInternalIP, ip⟩) := by
  induction ifaces generalizing acc with
  | nil => simp [ipAddressStrings]
  | cons iface rest ih =>
    rw [List.foldl_cons, ih]
    cases h : iface.IpAddresses with
    | none => simp [ipAddressStrings, h]
    | some ips => simp [ipAddressStrings, h, foldl_append_internalIP]

theorem nodeAddresses_eq_specAddresses (inst : Instance) (nodeName : String) :
    nodeAddresses inst nodeName = specAddresses inst nodeName := by
  unfold nodeAddresses specAddresses
  cases h : inst.Interfaces with
  | none => simp [ipAddressStrings]
  | some ifaces => simp [foldl_interfaces]

/-- C4: for a successful lookup the address list of `InstanceMetadata` is one internal-IP
entry per address string, interfaces in their order and addresses in their order within an
interface, followed by one host-name entry with the node name; its length is the number
of address strings plus one. -/
theorem InstanceMetadata_addresses (c : NvidiaBMMCloud) (node : Node) (uuid : UUID)
    (resp : GetInstanceResponse) (inst : Instance)
    (hdec : parseProviderID node.ProviderID = (uuid, none))
    (hlook : c.nvidiaBmmClient c.orgName uuid = (some resp, none))
    (hcode : resp.StatusCode = 200) (hbody : resp.JSON200 = some inst) :
    ∃ m, (InstanceMetadata c node).result = .ret (some m) none ∧
      m.NodeAddresses =
        (ipAddressStrings (inst.Interfaces.getD [])).map (fun ip => ⟨.NodeInternalIP, ip⟩)
          ++ [⟨.NodeHostName, node.Name⟩] ∧
      m.NodeAddresses.length = (ipAddressStrings (inst.Interfaces.getD [])).length + 1 := by
  refine ⟨_, InstanceMetadata_of_found c node uuid resp inst hdec hlook hcode hbody, ?_, ?_⟩
  · exact nodeAddresses_eq_specAddresses inst node.Name
  · simp [nodeAddresses_eq_specAddresses, specAddresses]

/-- C4, at concrete inputs: the spec's example gives the internal IP `10.100.1.10` and the
host name; three interfaces (one without address list, one repeating an address) give
those addresses in order, the duplicate kept, then the host name. -/
theorem InstanceMetadata_addresses_witness :
    (∃ m, (InstanceMetadata (cloudAnswering (answer 200 (some (sampleInstance none)))
        "site-east-1") sampleNode).result = .ret (some m) none ∧
      m.NodeAddresses = [⟨.NodeInternalIP, "10.100.1.10"⟩, ⟨.NodeHostName, "test-node"⟩] ∧
      m.NodeAddresses.length = 1 + 1) ∧
    (∃ m, (InstanceMetadata (cloudAnswering (answer 200 (some anonymousInstance))
        "site-east-1") sampleNode).result = .ret (some m) none ∧
      m.NodeAddresses = [⟨.NodeInternalIP, "10.0.0.1"⟩, ⟨.NodeInternalIP, "10.0.0.2"⟩,
        ⟨.NodeInternalIP, "10.0.0.1"⟩, ⟨.NodeHostName, "test-node"⟩] ∧
      m.NodeAddresses.length = 3 + 1) :=
  ⟨InstanceMetadata_addresses (cloudAnswering (answer 200 (some (sampleInstance none)))
      "site-east-1") sampleNode sampleUUID (response 200 (some (sampleInstance none)))
      (sampleInstance none) sampleNode_decodable rfl rfl rfl,
   InstanceMetadata_addresses (cloudAnswering (answer 200 (some anonymousInstance))
      "site-east-1") sampleNode sampleUUID (response 200 (some anonymousInstance))
      anonymousInstance sampleNode_decodable rfl rfl rfl⟩

/-! ## C5: zone and region come from the configured site only -/

/-- C5: the zone and region of `InstanceMetadata` are `getZoneFromSiteID` and
`getRegionFromSiteID` of the configured site; two runs of adapters configured with the
same site agree on both, whatever their nodes' provider IDs and their lookup results. -/
theorem InstanceMetadata_topology_from_site (c₁ c₂ : NvidiaBMMCloud) (node₁ node₂ : Node)
    (uuid₁ uuid₂ : UUID) (resp₁ resp₂ : GetInstanceResponse) (inst₁ inst₂ : Instance)
    (hsite : c₁.siteID = c₂.siteID)
    (hdec₁ : parseProviderID node₁.ProviderID = (uuid₁, none))
    (hlook₁ : c₁.nvidiaBmmClient c₁.orgName uuid₁ = (some resp₁, none))
    (hcode₁ : resp₁.StatusCode = 200) (hbody₁ : resp₁.JSON200 = some inst₁)
    (hdec₂ : parseProviderID node₂.ProviderID = (uuid₂, none))
    (hlook₂ : c₂.nvidiaBmmClient c₂.orgName uuid₂ = (some resp₂, none))
    (hcode₂ : resp₂.StatusCode = 200) (hbody₂ : resp₂.JSON200 = some inst₂) :
    ∃ m₁ m₂, (InstanceMetadata c₁ node₁).result = .ret (some m₁) none ∧
      (InstanceMetadata c₂ node₂).result = .ret (some m₂) none ∧
      m₁.Zone = getZoneFromSiteID c₁ c₁.siteID ∧
      m₁.Region = getRegionFromSiteID c₁ c₁.siteID ∧
      m₂.Zone = m₁.Zone ∧ m₂.Region = m₁.Region := by
  refine ⟨_, _, InstanceMetadata_of_found c₁ node₁ uuid₁ resp₁ inst₁ hdec₁ hlook₁ hcode₁ hbody₁,
    InstanceMetadata_of_found c₂ node₂ uuid₂ resp₂ inst₂ hdec₂ hlook₂ hcode₂ hbody₂,
    rfl, rfl, ?_, ?_⟩
  · simp only [getZoneFromSiteID, hsite]
  · simp only [getRegionFromSiteID, hsite]

/-- C5, at concrete inputs: with the site `site-east-1` configured, a node of that site
and a node whose provider ID names the site `west-9`, with different lookup results, get
the same zone and region. -/
theorem InstanceMetadata_topology_from_site_witness :
    ∃ m₁ m₂,
      (InstanceMetadata (cloudAnswering (answer 200 (some (sampleInstance none)))
        "site-east-1") sampleNode).result = .ret (some m₁) none ∧
      (InstanceMetadata (cloudAnswering (answer 200 (some anonymousInstance))
        "site-east-1") foreignNode).result = .ret (some m₂) none ∧
      m₁.Zone = getZoneFromSiteID (cloudAnswering (answer 200 (some (sampleInstance none)))
        "site-east-1") "site-east-1" ∧
      m₁.Region = getRegionFromSiteID (cloudAnswering (answer 200 (some (sampleInstance none)))
        "site-east-1") "site-east-1" ∧
      m₂.Zone = m₁.Zone ∧ m₂.Region = m₁.Region :=
  InstanceMetadata_topology_from_site
    (cloudAnswering (answer 200 (some (sampleInstance none))) "site-east-1")
    (cloudAnswering (answer 200 (some anonymousInstance)) "site-east-1")
    sampleNode foreignNode sampleUUID sampleUUID
    (response 200 (some (sampleInstance none))) (response 200 (some anonymousInstance))
    (sampleInstance none) anonymousInstance rfl
    sampleNode_decodable rfl rfl rfl (by decide) rfl rfl rfl

/-! ## C6, C7: the region of a site -/

/-- C6 fails as stated: the site identifier `site` has no `-`, and its region is
`nvidia-bmm-region-site`, not the default token. -/
theorem getRegionFromSiteID_site_not_default :
    '-' ∉ "site".data ∧
    getRegionFromSiteID (cloudAnswering (answer 200 none) "site") "site"
      = "nvidia-bmm-region-site" ∧
    getRegionFromSiteID (cloudAnswering (answer 200 none) "site") "site"
      ≠ "nvidia-bmm-region-default" := by
  decide

/-- C6 as amended: for every non-empty site identifier without `-`, the region is
`nvidia-bmm-region-` followed by the whole site identifier. -/
theorem getRegionFromSiteID_without_separator (c : NvidiaBMMCloud) (siteID : String)
    (_hne : siteID ≠ "") (hsep : '-' ∉ siteID.data) :
    getRegionFromSiteID c siteID = "nvidia-bmm-region-" ++ siteID := by
  apply getRegionFromSiteID_of_split c siteID siteID []
  simp [strings.Split, splitChars_of_not_mem _ _ hsep]

/-- C6 as amended, at the site identifier `site`. -/
theorem getRegionFromSiteID_without_separator_witness :
    getRegionFromSiteID (cloudAnswering (answer 200 none) "site") "site"
      = "nvidia-bmm-region-" ++ "site" :=
  getRegionFromSiteID_without_separator (cloudAnswering (answer 200 none) "site") "site"
    (by decide) (by decide)

/-- C7: a site identifier containing `-` splits at its first `-` into a part `pre`
without `-` and a remainder, and the region is `nvidia-bmm-region-` followed by `pre`; the
function is total, the index into the split parts being guarded. -/
theorem getRegionFromSiteID_leading_part (c : NvidiaBMMCloud) (siteID : String)
    (hsep : '-' ∈ siteID.data) :
    ∃ pre rest : String, siteID = pre ++ "-" ++ rest ∧ '-' ∉ pre.data ∧
      getRegionFromSiteID c siteID = "nvidia-bmm-region-" ++ pre := by
  obtain ⟨pre, rest, hl, hpre⟩ := exists_first_occurrence '-' siteID.data hsep
  refine ⟨String.mk pre, String.mk rest, ?_, hpre, ?_⟩
  · apply String.ext
    simp [hl]
  · apply getRegionFromSiteID_of_split c siteID (String.mk pre)
      ((strings.splitChars '-' rest).map String.mk)
    simp [strings.Split, hl, splitChars_append_sep _ _ _ hpre]

/-- C7, at the spec's example: the region of `site-east-1` is built from `site`. -/
theorem getRegionFromSiteID_leading_part_witness :
    (∃ pre rest : String, "site-east-1" = pre ++ "-" ++ rest ∧ '-' ∉ pre.data ∧
      getRegionFromSiteID (cloudAnswering (answer 200 none) "site-east-1") "site-east-1"
        = "nvidia-bmm-region-" ++ pre) ∧
    getRegionFromSiteID (cloudAnswering (answer 200 none) "site-east-1") "site-east-1"
      = "nvidia-bmm-region-site" :=
  ⟨getRegionFromSiteID_leading_part (cloudAnswering (answer 200 none) "site-east-1")
      "site-east-1" (by decide), by decide⟩

/-! ## C8: the zone of a site -/

/-- C8: the zone of a site is `nvidia-bmm-zone-` followed by the site string unchanged,
for every site string, and two different site strings have different zones. -/
theorem getZoneFromSiteID_injective (c : NvidiaBMMCloud) :
    (∀ siteID, getZoneFromSiteID c siteID = "nvidia-bmm-zone-" ++ siteID) ∧
    (∀ s₁ s₂, s₁ ≠ s₂ → getZoneFromSiteID c s₁ ≠ getZoneFromSiteID c s₂) := by
  refine ⟨fun _ => rfl, ?_⟩
  intro s₁ s₂ hne heq
  apply hne
  unfold getZoneFromSiteID at heq
  have hd := congrArg String.data heq
  simp only [String.data_append] at hd
  exact String.ext (List.append_cancel_left hd)

/-- C8, at two concrete sites. -/
theorem getZoneFromSiteID_injective_witness :
    getZoneFromSiteID (cloudAnswering (answer 200 none) "site-east-1") "site-east-1"
      = "nvidia-bmm-zone-site-east-1" ∧
    getZoneFromSiteID (cloudAnswering (answer 200 none) "site-east-1") "site-east-1"
      ≠ getZoneFromSiteID (cloudAnswering (answer 200 none) "site-east-1") "site-east-2" :=
  ⟨(getZoneFromSiteID_injective (cloudAnswering (answer 200 none) "site-east-1")).1
      "site-east-1",
   (getZoneFromSiteID_injective (cloudAnswering (answer 200 none) "site-east-1")).2
      "site-east-1" "site-east-2" (by decide)⟩

/-! ## C9: the instance type -/

/-- C9: for a successful lookup `InstanceMetadata` sets the instance type to
`nvidia-bmm-instance` when the body has a resource identifier and to `unknown` when it
has none; no other field of the body is consulted. -/
theorem InstanceMetadata_instanceType (c : NvidiaBMMCloud) (node : Node) (uuid : UUID)
    (resp : GetInstanceResponse) (inst : Instance)
    (hdec : parseProviderID node.ProviderID = (uuid, none))
    (hlook : c.nvidiaBmmClient c.orgName uuid = (some resp, none))
    (hcode : resp.StatusCode = 200) (hbody : resp.JSON200 = some inst) :
    ∃ m, (InstanceMetadata c node).result = .ret (some m) none ∧
      (inst.Id ≠ none → m.InstanceType = "nvidia-bmm-instance") ∧
      (inst.Id = none → m.InstanceType = "unknown") := by
  refine ⟨_, InstanceMetadata_of_found c node uuid resp inst hdec hlook hcode hbody, ?_, ?_⟩
  · intro h
    cases hid : inst.Id with
    | none => exact absurd hid h
    | some id => simp
  · intro h
    simp [h]

/-- C9, at concrete inputs: a body with identifier and a body without one. -/
theorem InstanceMetadata_instanceType_witness :
    (∃ m, (InstanceMetadata (cloudAnswering (answer 200 (some (sampleInstance none)))
        "site-east-1") sampleNode).result = .ret (some m) none ∧
      m.InstanceType = "nvidia-bmm-instance") ∧
    (∃ m, (InstanceMetadata (cloudAnswering (answer 200 (some anonymousInstance))
        "site-east-1") sampleNode).result = .ret (some m) none ∧
      m.InstanceType = "unknown") :=
  ⟨(InstanceMetadata_instanceType (cloudAnswering (answer 200 (some (sampleInstance none)))
      "site-east-1") sampleNode sampleUUID (response 200 (some (sampleInstance none)))
      (sampleInstance none) sampleNode_decodable rfl rfl rfl).imp
      (fun _ h => ⟨h.1, h.2.1 (by decide)⟩),
   (InstanceMetadata_instanceType (cloudAnswering (answer 200 (some anonymousInstance))
      "site-east-1") sampleNode sampleUUID (response 200 (some anonymousInstance))
      anonymousInstance sampleNode_decodable rfl rfl rfl).imp
      (fun _ h => ⟨h.1, h.2.2 rfl⟩)⟩

/-! ## C10: round trip of the identity codec -/

theorem length_splitChars (sep : Char) (l : List Char) :
    (strings.splitChars sep l).length = l.count sep + 1 := by
  induction l with
  | nil => rfl
  | cons c cs ih =>
    by_cases hc : c = sep
    · subst hc
      simp [strings.splitChars, ih]
    · have hne : (c == sep) = false := by simpa using hc
      cases hs : strings.splitChars sep cs with
      | nil =>
        rw [hs] at ih
        simp at ih
      | cons p ps =>
        rw [hs] at ih
        simp only [strings.splitChars, if_neg hc, hs, List.count_cons, hne]
        simpa using ih

theorem no_slash_of_valid (x : providerid.ProviderID) (hvalid : x.Valid) :
    '/' ∉ x.OrgName.data ∧ '/' ∉ x.TenantName.data ∧ '/' ∉ x.SiteName.data := by
  have hlen := hvalid.2.2.2.2
  have hdata : x.String_.data = providerid.Scheme.data ++ (x.OrgName.data ++ '/' ::
      (x.TenantName.data ++ '/' :: (x.SiteName.data ++ '/' :: x.InstanceID.String_.data))) := by
    simp [providerid.ProviderID.String_, String.data_append]
  have hdrop : x.String_.data.drop providerid.Scheme.length = x.OrgName.data ++ '/' ::
      (x.TenantName.data ++ '/' :: (x.SiteName.data ++ '/' :: x.InstanceID.String_.data)) := by
    rw [hdata]
    exact List.drop_left _ _
  rw [hdrop] at hlen
  simp only [strings.Split, List.length_map, length_splitChars, List.count_append,
    List.count_cons, beq_self_eq_true, if_true] at hlen
  refine ⟨?_, ?_, ?_⟩ <;> (apply List.count_eq_zero.mp; omega)

/-- C10: for every valid identity (organization, tenant and site non-empty, the
identifier of the instance not nil, encoded form of exactly four `/`-delimited segments),
encoding succeeds with the wire format, decoding the encoded string gives the identity
back, and `parseProviderID` of the string of `NewProviderID(org, tenant, site, id)`
returns `id` with no error. -/
theorem roundtrip_of_valid (org tenant site : String) (id : UUID)
    (hvalid : (providerid.NewProviderID org tenant site id).Valid) :
    providerid.Encode (providerid.NewProviderID org tenant site id)
      = .ok (providerid.NewProviderID org tenant site id).String_ ∧
    providerid.ParseProviderID (providerid.NewProviderID org tenant site id).String_
      = .ok (providerid.NewProviderID org tenant site id) ∧
    parseProviderID (providerid.NewProviderID org tenant site id).String_ = (id, none) := by
  obtain ⟨hso, hst, hss⟩ := no_slash_of_valid _ hvalid
  have hparse := ParseProviderID_String (providerid.NewProviderID org tenant site id)
    hvalid.1 hvalid.2.1 hvalid.2.2.1 hso hst hss
  refine ⟨?_, hparse, ?_⟩
  · have h1 := hvalid.1
    have h2 := hvalid.2.1
    have h3 := hvalid.2.2.1
    have h4 := hvalid.2.2.2.1
    simp only [providerid.NewProviderID] at h1 h2 h3 h4
    simp [providerid.Encode, providerid.NewProviderID, h1, h2, h3, h4]
  · unfold parseProviderID
    rw [hparse]
    rfl

/-- C10, at the identity of the spec's metadata example and at the identity of the
tests. -/
theorem roundtrip_of_valid_witness :
    (providerid.Encode (providerid.NewProviderID "org1" "tenant1" "site-east-1" sampleUUID)
        = .ok "nvidia-bmm://org1/tenant1/site-east-1/12345678-1234-1234-1234-123456789abc" ∧
      providerid.ParseProviderID
          (providerid.NewProviderID "org1" "tenant1" "site-east-1" sampleUUID).String_
        = .ok (providerid.NewProviderID "org1" "tenant1" "site-east-1" sampleUUID) ∧
      parseProviderID
          (providerid.NewProviderID "org1" "tenant1" "site-east-1" sampleUUID).String_
        = (sampleUUID, none)) ∧
    parseProviderID (providerid.NewProviderID "myorg" "mytenant" "mysite" sampleUUID).String_
      = (sampleUUID, none) :=
  ⟨roundtrip_of_valid "org1" "tenant1" "site-east-1" sampleUUID (by decide),
   (roundtrip_of_valid "myorg" "mytenant" "mysite" sampleUUID (by decide)).2.2⟩

/-! ## C11: decoding rejects malformed identity strings -/

/-- C11: for every string that is empty, or lacks the scheme part `nvidia-bmm://`, or has
fewer than four `/`-delimited segments after it, or contains an empty segment, or whose
last segment is not a parseable UUID, `parseProviderID` returns an error together with
the nil UUID. -/
theorem parseProviderID_rejects_malformed (s : String)
    (h : s = "" ∨ ¬ providerid.Scheme.data.isPrefixOf s.data = true ∨
      (segmentsAfterScheme s).length < 4 ∨ "" ∈ segmentsAfterScheme s ∨
      (∃ last, (segmentsAfterScheme s).getLast? = some last ∧ UUID.Parse last = none)) :
    ∃ e, parseProviderID s = (UUID.Nil, some e) := by
  obtain ⟨e, he⟩ := ParseProviderID_rejects s h
  refine ⟨e, ?_⟩
  unfold parseProviderID
  rw [he]

/-- C11, at the strings of the tests and at one string per way of being malformed. -/
theorem parseProviderID_rejects_malformed_witness :
    (∃ e, parseProviderID "" = (UUID.Nil, some e)) ∧
    (∃ e, parseProviderID "invalid-format" = (UUID.Nil, some e)) ∧
    (∃ e, parseProviderID "nvidia-bmm://org/site" = (UUID.Nil, some e)) ∧
    (∃ e, parseProviderID "nvidia-bmm://org/site/not-a-uuid" = (UUID.Nil, some e)) ∧
    (∃ e, parseProviderID "nvidia-bmm://org//site/12345678-1234-1234-1234-123456789abc"
      = (UUID.Nil, some e)) ∧
    (∃ e, parseProviderID "nvidia-bmm://org/tenant/site/not-a-uuid" = (UUID.Nil, some e)) :=
  ⟨parseProviderID_rejects_malformed "" (Or.inl rfl),
   parseProviderID_rejects_malformed "invalid-format" (Or.inr (Or.inl (by decide))),
   parseProviderID_rejects_malformed "nvidia-bmm://org/site"
     (Or.inr (Or.inr (Or.inl (by decide)))),
   parseProviderID_rejects_malformed "nvidia-bmm://org/site/not-a-uuid"
     (Or.inr (Or.inr (Or.inl (by decide)))),
   parseProviderID_rejects_malformed
     "nvidia-bmm://org//site/12345678-1234-1234-1234-123456789abc"
     (Or.inr (Or.inr (Or.inr (Or.inl (by decide))))),
   parseProviderID_rejects_malformed "nvidia-bmm://org/tenant/site/not-a-uuid"
     (Or.inr (Or.inr (Or.inr (Or.inr ⟨"not-a-uuid", by decide, by decide⟩))))⟩

/-! ## C12: configuration validation -/

/-- C12: `Config.Validate` returns an error exactly when at least one of `Endpoint`,
`OrgName`, `Token`, `SiteID`, `TenantID` is empty; the error is `<name> is required` for
the first empty field in the order endpoint, orgName, token, siteId, tenantId; and it
returns nil when all five are non-empty. -/
theorem Config_Validate_first_empty (c : Config) :
    ((∃ e, c.Validate = some e) ↔
      (c.Endpoint = "" ∨ c.OrgName = "" ∨ c.Token = "" ∨ c.SiteID = "" ∨ c.TenantID = "")) ∧
    c.Validate = c.firstEmptyField.map (fun name => .errorf (name ++ " is required")) ∧
    (c.Endpoint ≠ "" → c.OrgName ≠ "" → c.Token ≠ "" → c.SiteID ≠ "" → c.TenantID ≠ "" →
      c.Validate = none) := by
  by_cases h1 : c.Endpoint = "" <;> by_cases h2 : c.OrgName = "" <;>
    by_cases h3 : c.Token = "" <;> by_cases h4 : c.SiteID = "" <;>
    by_cases h5 : c.TenantID = "" <;>
    simp [Config.Validate, Config.firstEmptyField, Config.namedFields, List.find?, h1, h2, h3,
      h4, h5]

/-- C12, at concrete inputs: the complete configuration of the tests is accepted, and a
configuration with empty token and empty site is rejected naming the token. -/
theorem Config_Validate_first_empty_witness :
    sampleConfig.Validate = none ∧
    partialConfig.Validate = some (.errorf "token is required") ∧
    (∃ e, partialConfig.Validate = some e) :=
  ⟨(Config_Validate_first_empty sampleConfig).2.2 (by decide) (by decide) (by decide)
      (by decide) (by decide),
   (Config_Validate_first_empty partialConfig).2.1,
   (Config_Validate_first_empty partialConfig).1.2 (Or.inr (Or.inr (Or.inl rfl)))⟩

/-! ## C13: an undecodable provider ID fails before any lookup -/

/-- C13: for a node whose provider ID is empty or fails to decode, `InstanceExists`,
`InstanceShutdown` and `InstanceMetadata` each return an error, next to `false`, `false`
and nil, and issue no remote lookup. -/
theorem undecodable_is_error_without_lookup (c : NvidiaBMMCloud) (node : Node)
    (h : node.ProviderID = "" ∨ ∃ e, (parseProviderID node.ProviderID).2 = some e) :
    ((InstanceExists c node).calls = [] ∧
      ∃ e, (InstanceExists c node).result = .ret false (some e)) ∧
    ((InstanceShutdown c node).calls = [] ∧
      ∃ e, (InstanceShutdown c node).result = .ret false (some e)) ∧
    ((InstanceMetadata c node).calls = [] ∧
      ∃ e, (InstanceMetadata c node).result = .ret none (some e)) := by
  by_cases hempty : node.ProviderID = ""
  · simp [InstanceExists, InstanceShutdown, InstanceMetadata, hempty]
  · obtain ⟨e, he⟩ := h.resolve_left hempty
    rcases hp : parseProviderID node.ProviderID with ⟨u, oe⟩
    rw [hp] at he
    simp only at he
    subst he
    simp [InstanceExists, InstanceShutdown, InstanceMetadata, hempty, hp]

/-- C13, at a node without provider ID and at a node with the provider ID
`invalid-format`, on an adapter whose lookup would have found the instance. -/
theorem undecodable_is_error_without_lookup_witness :
    (((InstanceExists healthyCloud (nodeWithID "")).calls = [] ∧
        ∃ e, (InstanceExists healthyCloud (nodeWithID "")).result = .ret false (some e)) ∧
      ((InstanceShutdown healthyCloud (nodeWithID "")).calls = [] ∧
        ∃ e, (InstanceShutdown healthyCloud (nodeWithID "")).result = .ret false (some e)) ∧
      ((InstanceMetadata healthyCloud (nodeWithID "")).calls = [] ∧
        ∃ e, (InstanceMetadata healthyCloud (nodeWithID "")).result = .ret none (some e))) ∧
    (((InstanceExists healthyCloud (nodeWithID "invalid-format")).calls = [] ∧
        ∃ e, (InstanceExists healthyCloud (nodeWithID "invalid-format")).result
          = .ret false (some e)) ∧
      ((InstanceShutdown healthyCloud (nodeWithID "invalid-format")).calls = [] ∧
        ∃ e, (InstanceShutdown healthyCloud (nodeWithID "invalid-format")).result
          = .ret false (some e)) ∧
      ((InstanceMetadata healthyCloud (nodeWithID "invalid-format")).calls = [] ∧
        ∃ e, (InstanceMetadata healthyCloud (nodeWithID "invalid-format")).result
          = .ret none (some e))) :=
  ⟨undecodable_is_error_without_lookup healthyCloud (nodeWithID "") (Or.inl rfl),
   undecodable_is_error_without_lookup healthyCloud (nodeWithID "invalid-format")
     (Or.inr ⟨.MalformedIdentity, by decide⟩)⟩

/-! ## C14: the zone operations -/

/-- C14: `GetZone`, `GetZoneByProviderID` and `GetZoneByNodeName` return no error and the
same zone, with failure domain `getZoneFromSiteID` and region `getRegionFromSiteID` of
the configured site, for every provider ID string and every node name; whenever
`InstanceMetadata` of the same adapter reports a metadata, its zone and region are that
failure domain and that region. -/
theorem zone_operations_agree (c : NvidiaBMMCloud) (providerID nodeName : String) :
    GetZone c = (⟨getZoneFromSiteID c c.siteID, getRegionFromSiteID c c.siteID⟩, none) ∧
    GetZoneByProviderID c providerID = GetZone c ∧
    GetZoneByNodeName c nodeName = GetZone c ∧
    (∀ node m e, (InstanceMetadata c node).result = .ret (some m) e →
      m.Zone = (GetZone c).1.FailureDomain ∧ m.Region = (GetZone c).1.Region) := by
  refine ⟨rfl, rfl, rfl, ?_⟩
  intro node m e h
  exact InstanceMetadata_some_topology c node m e h

/-- C14, at concrete inputs: with the site `site-east-1` configured, an empty provider
ID, a malformed one and a node name all give the zone `nvidia-bmm-zone-site-east-1` in
the region `nvidia-bmm-region-site` with no error, as does the metadata of a node. -/
theorem zone_operations_agree_witness :
    GetZone healthyCloud
      = (⟨"nvidia-bmm-zone-site-east-1", "nvidia-bmm-region-site"⟩, none) ∧
    GetZoneByProviderID healthyCloud "" = GetZone healthyCloud ∧
    GetZoneByProviderID healthyCloud "invalid-format" = GetZone healthyCloud ∧
    GetZoneByNodeName healthyCloud "test-node" = GetZone healthyCloud ∧
    (∃ m, (InstanceMetadata healthyCloud sampleNode).result = .ret (some m) none ∧
      m.Zone = (GetZone healthyCloud).1.FailureDomain ∧
      m.Region = (GetZone healthyCloud).1.Region) :=
  ⟨(zone_operations_agree healthyCloud "" "test-node").1,
   (zone_operations_agree healthyCloud "" "test-node").2.1,
   (zone_operations_agree healthyCloud "invalid-format" "test-node").2.1,
   (zone_operations_agree healthyCloud "" "test-node").2.2.1,
   ⟨_, InstanceMetadata_of_found healthyCloud sampleNode sampleUUID
        (response 200 (some (sampleInstance (some "Running"))))
        (sampleInstance (some "Running")) sampleNode_decodable rfl rfl rfl,
     (zone_operations_agree healthyCloud "" "test-node").2.2.2 sampleNode _ none
       (InstanceMetadata_of_found healthyCloud sampleNode sampleUUID
         (response 200 (some (sampleInstance (some "Running"))))
         (sampleInstance (some "Running")) sampleNode_decodable rfl rfl rfl)⟩⟩

/-! ## C15: the three operations agree on what a successful lookup is -/

/-- C15: for a node with a decodable provider ID, on one adapter (hence one lookup
outcome), `InstanceExists` returns `(true, nil)` exactly when `InstanceShutdown` returns
without error, and exactly when `InstanceMetadata` returns a metadata without error;
`InstanceExists` returns `(false, nil)` exactly when `InstanceShutdown` returns an error,
and exactly when `InstanceMetadata` returns an error. -/
theorem lifecycle_operations_agree (c : NvidiaBMMCloud) (node : Node) (uuid : UUID)
    (hdec : parseProviderID node.ProviderID = (uuid, none)) :
    ((InstanceExists c node).result = .ret true none ↔
      ∃ v, (InstanceShutdown c node).result = .ret v none) ∧
    ((InstanceExists c node).result = .ret true none ↔
      ∃ m, (InstanceMetadata c node).result = .ret (some m) none) ∧
    ((InstanceExists c node).result = .ret false none ↔
      ∃ e, (InstanceShutdown c node).result = .ret false (some e)) ∧
    ((InstanceExists c node).result = .ret false none ↔
      ∃ e, (InstanceMetadata c node).result = .ret none (some e)) := by
  rw [InstanceExists_of_decodable c node uuid hdec,
    InstanceShutdown_of_decodable c node uuid hdec,
    InstanceMetadata_of_decodable c node uuid hdec]
  rcases c.nvidiaBmmClient c.orgName uuid with ⟨r, e⟩
  cases e with
  | some err => simp
  | none =>
    cases r with
    | none => simp
    | some resp =>
      cases hb : resp.JSON200 with
      | none => simp [hb]
      | some inst =>
        by_cases hc : resp.StatusCode = StatusOK
        · simp [hb, hc]
        · simp [hb, hc]

/-- C15, at concrete inputs: a found instance (all three succeed) and a 404 without body
(`InstanceExists` gives `(false, nil)`, the other two give errors). -/
theorem lifecycle_operations_agree_witness :
    ((InstanceExists healthyCloud sampleNode).result = .ret true none ∧
      (∃ v, (InstanceShutdown healthyCloud sampleNode).result = .ret v none) ∧
      (∃ m, (InstanceMetadata healthyCloud sampleNode).result = .ret (some m) none)) ∧
    ((InstanceExists notFoundCloud sampleNode).result = .ret false none ∧
      (∃ e, (InstanceShutdown notFoundCloud sampleNode).result = .ret false (some e)) ∧
      (∃ e, (InstanceMetadata notFoundCloud sampleNode).result = .ret none (some e))) :=
  ⟨⟨rfl,
    (lifecycle_operations_agree healthyCloud sampleNode sampleUUID
      sampleNode_decodable).1.1 rfl,
    (lifecycle_operations_agree healthyCloud sampleNode sampleUUID
      sampleNode_decodable).2.1.1 rfl⟩,
   ⟨rfl,
    (lifecycle_operations_agree notFoundCloud sampleNode sampleUUID
      sampleNode_decodable).2.2.1.1 rfl,
    (lifecycle_operations_agree notFoundCloud sampleNode sampleUUID
      sampleNode_decodable).2.2.2.1 rfl⟩⟩

end NvidiaBMM
